import Mathlib

/-!
Verification development for the `workbench-bridges` repository.

The development shallowly embeds the two core components of the repository:

* `aws_utils.py`: the `not_found_returns_none` error-classification wrapper,
  which converts AWS "resource absent" error codes (and the
  `awswrangler` no-matching-files error) into a `None` sentinel and
  re-raises every other remote error unchanged.

* `df_store.py`: the `DFStore` class, a key-value store of DataFrames on
  top of S3/Parquet.  Its operations `get`, `upsert`, `delete` and
  `details`, as well as the name-to-key mapping `_generate_s3_uri` and the
  inverse name decoding performed in `details`, are embedded over an
  explicit remote-state model.

Python exceptions are modelled by an explicit `Exc` type and fallible
computations by `PyResult`.  The remote S3 layer is modelled as an explicit
association list from URI to stored table, together with an environment of
injected remote faults (one per operation and URI), so that both the
success path and every failure path of the Python code are represented.
The Parquet codec is external to the repository and is lossless for
supported tables, so serialization is modelled as the identity on tables.
-/

/-- A Python exception, as far as the embedded code distinguishes them:
`botocore` `ClientError` carries an error code and the rest of its response
payload; `awswrangler.exceptions.NoFilesFound` is the codec's
no-matching-files error; `ValueError` is raised by `upsert` on a bad
payload; `other` stands for any further exception type. -/
inductive Exc where
  | clientError (code : String) (payload : String)
  | noFilesFound
  | valueError (msg : String)
  | other (msg : String)
deriving DecidableEq, Repr

/-- Result of running a Python computation: a value, or a raised exception. -/
inductive PyResult (α : Type) where
  | ok (v : α)
  | raised (e : Exc)
deriving DecidableEq, Repr

/-- The configured not-found error-code set of `not_found_returns_none`
(`aws_utils.py`, lines 32-38). -/
def notFoundErrors : List String :=
  ["ResourceNotFound", "ResourceNotFoundException", "EntityNotFoundException",
   "ValidationException", "NoSuchBucket"]

/-- The `try/except` body of the wrapper returned by `not_found_returns_none`
(`aws_utils.py`, lines 42-55): a `ClientError` whose code is in
`notFoundErrors` becomes the sentinel `none`; any other `ClientError` is
re-raised; `NoFilesFound` becomes the sentinel; everything else (a normal
return, or an exception of any other type) passes through unchanged. -/
def classifyResult {β : Type} (r : PyResult (Option β)) : PyResult (Option β) :=
  match r with
  | .raised (.clientError code payload) =>
      if code ∈ notFoundErrors then .ok none else .raised (.clientError code payload)
  | .raised .noFilesFound => .ok none
  | r => r

/-- The decorator `not_found_returns_none` applied to a function `f`:
the wrapped function runs `f` and classifies its outcome. -/
def not_found_returns_none {α β : Type} (f : α → PyResult (Option β)) (a : α) :
    PyResult (Option β) :=
  classifyResult (f a)

/-- C4: for every wrapped function and every invocation that fails with a
remote `ClientError`, the wrapped call returns the sentinel `none` when the
error code is in the configured not-found set, and re-raises the very same
error (same type, same code and payload) otherwise; an invocation failing
with the codec's no-matching-files error also returns the sentinel. -/
theorem c4_error_classification {α β : Type} (f : α → PyResult (Option β))
    (a : α) (code payload : String) :
    (f a = .raised (.clientError code payload) → code ∈ notFoundErrors →
      not_found_returns_none f a = .ok none)
    ∧ (f a = .raised (.clientError code payload) → code ∉ notFoundErrors →
      not_found_returns_none f a = .raised (.clientError code payload))
    ∧ (f a = .raised .noFilesFound → not_found_returns_none f a = .ok none) := by
  refine ⟨fun h hmem => ?_, fun h hmem => ?_, fun h => ?_⟩
  · simp [not_found_returns_none, classifyResult, h, hmem]
  · simp [not_found_returns_none, classifyResult, h, hmem]
  · simp [not_found_returns_none, classifyResult, h]

/-- Witness for C4: all three hypotheses of `c4_error_classification` are
satisfiable, exercised on three concrete failing functions. -/
theorem c4_error_classification_witness :
    (not_found_returns_none
      (fun (_ : Unit) =>
        (.raised (.clientError ("NoSuchBucket") ("p")) : PyResult (Option Nat)))
      () = .ok none)
    ∧ (not_found_returns_none
      (fun (_ : Unit) =>
        (.raised (.clientError ("AccessDenied") ("p")) : PyResult (Option Nat)))
      () = .raised (.clientError ("AccessDenied") ("p")))
    ∧ (not_found_returns_none
      (fun (_ : Unit) => (.raised .noFilesFound : PyResult (Option Nat)))
      () = .ok none) :=
  ⟨(c4_error_classification _ () ("NoSuchBucket") ("p")).1 rfl (by decide),
   (c4_error_classification
      (fun (_ : Unit) => (.raised (.clientError ("AccessDenied") ("p")) : PyResult (Option Nat)))
      () ("AccessDenied") ("p")).2.1 rfl (by decide),
   (c4_error_classification _ () ("AccessDenied") ("p")).2.2 rfl⟩

/-- C10: the error-classification wrapper is transparent on success: if the
wrapped function returns normally, the wrapped call returns exactly that
value, unchanged. -/
theorem c10_wrapper_transparent_on_success {α β : Type}
    (f : α → PyResult (Option β)) (a : α) (v : Option β)
    (h : f a = .ok v) : not_found_returns_none f a = .ok v := by
  simp [not_found_returns_none, classifyResult, h]

/-- Witness for C10 at a concrete function returning `some 7`. -/
theorem c10_wrapper_transparent_on_success_witness :
    not_found_returns_none (fun (_ : Unit) => .ok (some 7)) () = .ok (some 7) :=
  c10_wrapper_transparent_on_success (fun (_ : Unit) => .ok (some (7 : Nat))) ()
    (some 7) rfl

/-- Helper loop for `replaceAll`: scans the character list left to right;
a positive first argument means that many characters of an already-matched
pattern occurrence remain to be skipped.  Mirrors the scanning behaviour of
Python `str.replace`: after a match the scan resumes past the matched text,
and replacement text is never rescanned. -/
def replLoop (pat rep : List Char) : Nat → List Char → List Char
  | _, [] => []
  | k + 1, _ :: rest => replLoop pat rep k rest
  | 0, c :: rest =>
      if pat.isPrefixOf (c :: rest) then
        rep ++ replLoop pat rep (pat.length - 1) rest
      else
        c :: replLoop pat rep 0 rest

/-- Python `s.replace(pat, rep)` on character lists, for nonempty `pat`:
every non-overlapping occurrence of `pat`, scanning left to right, is
replaced by `rep`. -/
def replaceAll (pat rep l : List Char) : List Char :=
  replLoop pat rep 0 l

/-- Python `s.split(pat)[0]` on character lists, for nonempty `pat`:
the part of `l` strictly before the first occurrence of `pat`
(all of `l` when `pat` does not occur). -/
def splitFirst (pat : List Char) : List Char → List Char
  | [] => []
  | c :: rest => if pat.isPrefixOf (c :: rest) then [] else c :: splitFirst pat rest

/-- Python `s.replace(old, new)` on strings. -/
def pyReplace (s old new : String) : String :=
  String.mk (replaceAll old.data new.data s.data)

/-- Python `s.split(pat)[0]` on strings. -/
def pySplitHead (s pat : String) : String :=
  String.mk (splitFirst pat.data s.data)

/-- The namespace prefix of `DFStore` (`self.prefix`, `df_store.py` line 44). -/
def nsPref : String := "df_store/"

/-- The file extension used by `DFStore` (`df_store.py` line 161). -/
def parquetExt : String := ".parquet"

/-- Embedding of `DFStore._generate_s3_uri` (`df_store.py`, lines 159-164): build
`"{bucket}/{prefix}{name}.parquet"`, collapse doubled slashes, and put the
`s3://` scheme in front. -/
def generate_s3_uri (bucket name : String) : String :=
  "s3://" ++ pyReplace (bucket ++ "/" ++ nsPref ++ name ++ parquetExt) ("//") ("/")

/-- The storage key of a logical name relative to the bucket: the part of
`generate_s3_uri` after `"s3://{bucket}/"`, which is also the S3 object key
that a bucket listing reports. -/
def storageKey (name : String) : String :=
  pyReplace (nsPref ++ name ++ parquetExt) ("//") ("/")

/-- The name decoding performed by `DFStore.details` (`df_store.py` line 85):
`full_key.replace(prefix, "/").split(".parquet")[0]`. -/
def decodeName (key : String) : String :=
  pySplitHead (pyReplace key nsPref ("/")) parquetExt

/-- A pattern occurring as a prefix has at most as many copies of any
character as the list it prefixes. -/
theorem count_le_of_isPrefixOf (c : Char) :
    ∀ (pat l : List Char), pat.isPrefixOf l → pat.count c ≤ l.count c := by
  intro pat
  induction pat with
  | nil => intro l _; simp
  | cons p ps ih =>
    intro l h
    cases l with
    | nil => simp [List.isPrefixOf] at h
    | cons q qs =>
      simp only [List.isPrefixOf, Bool.and_eq_true, beq_iff_eq] at h
      obtain ⟨rfl, hrest⟩ := h
      have := ih qs hrest
      by_cases hc : p = c <;> simp [List.count_cons, hc] <;> omega

/-- Every list is a `isPrefixOf` of itself followed by anything. -/
theorem isPrefixOf_append_self (l xs : List Char) : l.isPrefixOf (l ++ xs) := by
  induction l with
  | nil => simp
  | cons a as ih => simp [List.isPrefixOf, ih]

/-- Unfolding equation of `replLoop` at skip count zero on a nonempty list. -/
theorem replLoop_zero_cons (pat rep : List Char) (c : Char) (rest : List Char) :
    replLoop pat rep 0 (c :: rest) =
      if pat.isPrefixOf (c :: rest) then
        rep ++ replLoop pat rep (pat.length - 1) rest
      else
        c :: replLoop pat rep 0 rest := rfl

/-- Unfolding equation of `splitFirst` on a nonempty list. -/
theorem splitFirst_cons (pat : List Char) (c : Char) (rest : List Char) :
    splitFirst pat (c :: rest) =
      if pat.isPrefixOf (c :: rest) then [] else c :: splitFirst pat rest := rfl

/-- A skip count equal to the length of a leading block skips exactly it. -/
theorem replLoop_skip (pat rep : List Char) :
    ∀ (l xs : List Char), replLoop pat rep l.length (l ++ xs) = replLoop pat rep 0 xs := by
  intro l
  induction l with
  | nil => intro xs; rfl
  | cons a as ih => intro xs; exact ih xs

/-- If some character occurs strictly more often in the pattern than in the
list, the pattern never matches and `replaceAll` is the identity. -/
theorem replaceAll_eq_self (pat rep : List Char) (c : Char) :
    ∀ (l : List Char), l.count c < pat.count c → replaceAll pat rep l = l := by
  intro l
  induction l with
  | nil => intro _; rfl
  | cons a as ih =>
    intro h
    have hnp : ¬ pat.isPrefixOf (a :: as) = true := by
      intro hp
      exact absurd (count_le_of_isPrefixOf c pat (a :: as) hp) (by omega)
    have has : as.count c < pat.count c := by
      have : as.count c ≤ (a :: as).count c := by
        by_cases hac : a = c <;> simp [List.count_cons, hac]
      omega
    show replLoop pat rep 0 (a :: as) = a :: as
    rw [replLoop_zero_cons, if_neg hnp]
    exact congrArg (a :: ·) (ih has)

/-- A list is its own `isPrefixOf`. -/
theorem isPrefixOf_self (l : List Char) : l.isPrefixOf l := by
  induction l with
  | nil => rfl
  | cons a as ih => simp [List.isPrefixOf, ih]

/-- Running `replaceAll` on a list starting with the pattern replaces that
occurrence and continues past it. -/
theorem replaceAll_front (pat rep xs : List Char) (hp : pat ≠ []) :
    replaceAll pat rep (pat ++ xs) = rep ++ replaceAll pat rep xs := by
  cases pat with
  | nil => exact absurd rfl hp
  | cons p ps =>
    have hpre : (p :: ps).isPrefixOf (p :: (ps ++ xs)) = true :=
      isPrefixOf_append_self (p :: ps) xs
    show replLoop (p :: ps) rep 0 (p :: (ps ++ xs)) = rep ++ replLoop (p :: ps) rep 0 xs
    rw [replLoop_zero_cons, if_pos hpre]
    have hlen : (p :: ps).length - 1 = ps.length := by simp
    rw [hlen]
    exact congrArg (rep ++ ·) (replLoop_skip (p :: ps) rep ps xs)

/-- Running `splitFirst` at a pattern appended after a block free of the pattern's
first character returns exactly that block. -/
theorem splitFirst_boundary (p₀ : Char) (pr : List Char) :
    ∀ (l : List Char), (∀ c ∈ l, c ≠ p₀) →
      splitFirst (p₀ :: pr) (l ++ p₀ :: pr) = l := by
  intro l
  induction l with
  | nil =>
    intro _
    show splitFirst (p₀ :: pr) (p₀ :: pr) = []
    rw [splitFirst_cons, if_pos (isPrefixOf_self (p₀ :: pr))]
  | cons a as ih =>
    intro h
    have ha : ¬ (p₀ == a) = true := by
      simp only [beq_iff_eq]
      exact fun hpa => (h a (List.mem_cons_self a as)) (hpa ▸ rfl)
    have hnp : ¬ ((p₀ :: pr).isPrefixOf (a :: (as ++ p₀ :: pr)) = true) := by
      simp [List.isPrefixOf, ha]
    show splitFirst (p₀ :: pr) (a :: (as ++ p₀ :: pr)) = a :: as
    rw [splitFirst_cons, if_neg hnp]
    exact congrArg (a :: ·) (ih fun c hc => h c (List.mem_cons_of_mem a hc))

/-- String concatenation concatenates the underlying character lists. -/
theorem strData_append (a b : String) : (a ++ b).data = a.data ++ b.data := rfl

/-- For a logical name containing no slash, the doubled-slash collapse in
the key is the identity: the key is literally `df_store/{name}.parquet`. -/
theorem storageKey_id (n : String) (h1 : '/' ∉ n.data) :
    storageKey n = String.mk (nsPref.data ++ n.data ++ parquetExt.data) := by
  have hdata : (nsPref ++ n ++ parquetExt).data
      = nsPref.data ++ n.data ++ parquetExt.data := by
    rw [strData_append, strData_append]
  have hcount : (nsPref.data ++ n.data ++ parquetExt.data).count '/'
      < (("//" : String)).data.count '/' := by
    rw [List.count_append, List.count_append, List.count_eq_zero.mpr h1]
    decide
  show String.mk (replaceAll ("//" : String).data ("/" : String).data
      (nsPref ++ n ++ parquetExt).data) = _
  rw [hdata]
  exact congrArg String.mk
    (replaceAll_eq_self ("//" : String).data ("/" : String).data '/' _ hcount)

/-- Decoding the storage key of a slash-free, dot-free logical name, by the
reverse logic of `DFStore.details` line 85, yields the name with a slash
prepended (the prefix is replaced by `"/"`, not stripped). -/
theorem decode_storageKey (n : String) (h1 : '/' ∉ n.data) (h2 : '.' ∉ n.data) :
    decodeName (storageKey n) = "/" ++ n := by
  rw [storageKey_id n h1]
  show pySplitHead (String.mk (replaceAll nsPref.data ("/" : String).data
      (nsPref.data ++ n.data ++ parquetExt.data))) parquetExt = _
  have hassoc : nsPref.data ++ n.data ++ parquetExt.data
      = nsPref.data ++ (n.data ++ parquetExt.data) := by
    rw [List.append_assoc]
  have hfront : replaceAll nsPref.data ("/" : String).data
      (nsPref.data ++ (n.data ++ parquetExt.data))
      = ("/" : String).data ++ replaceAll nsPref.data ("/" : String).data
          (n.data ++ parquetExt.data) :=
    replaceAll_front nsPref.data ("/" : String).data (n.data ++ parquetExt.data)
      (by decide)
  have hinner : replaceAll nsPref.data ("/" : String).data
      (n.data ++ parquetExt.data) = n.data ++ parquetExt.data := by
    refine replaceAll_eq_self nsPref.data ("/" : String).data '/' _ ?_
    rw [List.count_append, List.count_eq_zero.mpr h1]
    decide
  rw [hassoc, hfront, hinner]
  have hsplit : splitFirst parquetExt.data
      (('/' :: n.data) ++ ('.' :: ("parquet" : String).data)) = '/' :: n.data := by
    refine splitFirst_boundary '.' ("parquet" : String).data ('/' :: n.data) ?_
    intro c hc
    rcases List.mem_cons.mp hc with hcs | hcn
    · rw [hcs]; decide
    · exact fun hdot => h2 (hdot ▸ hcn)
  have hext : parquetExt.data = '.' :: ("parquet" : String).data := rfl
  show String.mk (splitFirst parquetExt.data
      (('/' :: n.data) ++ parquetExt.data)) = _
  rw [hext] at hsplit ⊢
  rw [hsplit]
  cases n with
  | mk d => rfl

/-- C3 counterexample: for the legal logical name `test_data`, decoding the
storage key produced by encoding it does not give back the name (it gives
`/test_data`), so the name-to-key mapping is not its own inverse. -/
theorem c3_name_codec_counterexample :
    decodeName (storageKey ("test_data")) ≠ ("test_data") := by decide

/-- C3 (amended): for every logical name without slash or dot characters,
decoding the storage key produced by encoding it yields the name with a
leading `"/"` prepended — the `details` reverse logic substitutes the
namespace prefix with `"/"` rather than stripping it — and therefore does
not yield the original name. -/
theorem c3_name_codec_roundtrip_amended (n : String)
    (h1 : '/' ∉ n.data) (h2 : '.' ∉ n.data) :
    decodeName (storageKey n) = "/" ++ n ∧ decodeName (storageKey n) ≠ n := by
  have h := decode_storageKey n h1 h2
  refine ⟨h, ?_⟩
  rw [h]
  intro heq
  have hlen := congrArg (fun s => s.data.length) heq
  simp only [strData_append, List.length_append] at hlen
  have hone : ("/" : String).data.length = 1 := rfl
  rw [hone] at hlen
  omega

/-- Witness for C3 (amended) at the concrete name `test_data`. -/
theorem c3_name_codec_roundtrip_amended_witness :
    decodeName (storageKey ("test_data")) = "/" ++ ("test_data")
    ∧ decodeName (storageKey ("test_data")) ≠ ("test_data") :=
  c3_name_codec_roundtrip_amended ("test_data") (by decide) (by decide)

/-- A DataFrame: an ordered sequence of named columns, each with its list of
values.  Equality of tables is exact equality of column names, column order
and values. -/
abbrev Table (V : Type) := List (String × List V)

/-- The empty DataFrame `pd.DataFrame()`: zero rows, no defined columns. -/
def emptyTable {V : Type} : Table V := []

/-- The remote S3 state: an association list from full S3 URI to the stored
table (one entry per stored dataset).  The Parquet codec is lossless for
supported tables, so the stored blob is modelled as the table itself. -/
abbrev S3State (V : Type) := List (String × Table V)

/-- String prefix test (S3 prefix listing semantics). -/
def strHasPref (pre s : String) : Bool := pre.data.isPrefixOf s.data

/-- Remote fault injection: for each remote operation and URI (or bucket),
the environment decides whether the call raises, and which exception; it
also supplies the remote-maintained metadata (object size and modification
time) reported by listings. -/
structure Env where
  readFault : String → Option Exc
  writeFault : String → Option Exc
  listFault : String → Option Exc
  deleteFault : String → Option Exc
  listV2Fault : String → Option Exc
  keySize : String → Nat
  keyModified : String → Nat

/-- Severity levels of the `workbench-bridges` logger. -/
inductive LogLevel where
  | info
  | warning
  | error
  | critical
deriving DecidableEq, Repr

/-- A remote call made by a store operation (used to state that a failed
`upsert` performs no remote call). -/
inductive RemoteCall where
  | writeP (uri : String)
  | listO (uri : String)
  | deleteO (uri : String)
deriving DecidableEq, Repr

/-- Log messages of `df_store.py` (the interpolated data name is elided). -/
def msgNotFoundS3 : String := "Data not found in S3."

/-- Log message of a successful `upsert`. -/
def msgUpsertOk : String := "Data added/updated successfully in S3."

/-- Log message of a failed `upsert` (logged critical, then re-raised). -/
def msgUpsertFail : String := "Failed to add/update data"

/-- Log message of `delete` on an absent name. -/
def msgDeleteMissing : String := "Data does not exist in S3. Cannot delete."

/-- Log message of a successful `delete`. -/
def msgDeleteOk : String := "Data deleted successfully from S3."

/-- Log message of a failed remote deletion (logged, not raised). -/
def msgDeleteFail : String := "Failed to delete data"

/-- Message of the `ValueError` raised by `upsert` on a bad payload. -/
def msgValueError : String := "Only Pandas DataFrame or Series objects are supported."

/-- Log message of a failed `details` enumeration. -/
def msgDetailsFail : String := "Failed to get object details"

/-- Lookup of the dataset stored at a URI. -/
def lookupObj {V : Type} (s3 : S3State V) (uri : String) : Option (Table V) :=
  (s3.find? (fun p => p.1 == uri)).map (fun p => p.2)

/-- Model of `wr.s3.read_parquet(uri)`: an injected fault raises; otherwise
the stored table is returned, and an absent path raises the codec's
`NoFilesFound`. -/
def read_parquet {V : Type} (env : Env) (s3 : S3State V) (uri : String) :
    PyResult (Table V) :=
  match env.readFault uri with
  | some e => .raised e
  | none =>
    match lookupObj s3 uri with
    | some t => .ok t
    | none => .raised .noFilesFound

/-- Model of `wr.s3.to_parquet(df, path, dataset=True, mode="overwrite")`:
an injected fault raises and leaves the state unchanged; otherwise the
dataset at the path is fully replaced. -/
def to_parquet {V : Type} (env : Env) (s3 : S3State V) (uri : String)
    (df : Table V) : PyResult (S3State V) :=
  match env.writeFault uri with
  | some e => .raised e
  | none => .ok ((uri, df) :: s3.filter (fun p => p.1 != uri))

/-- Model of `wr.s3.list_objects(uri)`: the keys stored under the URI
treated as a prefix. -/
def list_objects {V : Type} (env : Env) (s3 : S3State V) (uri : String) :
    PyResult (List String) :=
  match env.listFault uri with
  | some e => .raised e
  | none => .ok ((s3.filter (fun p => strHasPref uri p.1)).map (fun p => p.1))

/-- Model of `wr.s3.delete_objects(uri)`: removes every object under the
URI prefix; an injected fault raises and removes nothing. -/
def delete_objects {V : Type} (env : Env) (s3 : S3State V) (uri : String) :
    PyResult (S3State V) :=
  match env.deleteFault uri with
  | some e => .raised e
  | none => .ok (s3.filter (fun p => !(strHasPref uri p.1)))

/-- Metadata of one object reported by `s3_client.list_objects_v2`: the
bucket-relative key, `Size`, and `LastModified`. -/
structure S3ObjMeta where
  key : String
  objSize : Nat
  objModified : Nat
deriving DecidableEq, Repr

/-- Model of `s3_client.list_objects_v2(Bucket=bucket, Prefix=pfx)`: the
objects of the bucket whose key starts with the prefix, with remote
metadata; an empty result list models a response without a `Contents`
field. -/
def list_objects_v2 {V : Type} (env : Env) (s3 : S3State V)
    (bucket pfx : String) : PyResult (List S3ObjMeta) :=
  match env.listV2Fault bucket with
  | some e => .raised e
  | none =>
      .ok ((s3.filter (fun p => strHasPref ("s3://" ++ bucket ++ "/" ++ pfx) p.1)).map
        (fun p => ⟨p.1.drop ("s3://" ++ bucket ++ "/").length,
                   env.keySize p.1, env.keyModified p.1⟩))

/-- Outcome of a state-changing store operation: the resulting remote
state, the remote calls performed, the log entries emitted, and the
exception propagated to the caller, if any. -/
structure OpOut (V : Type) where
  state : S3State V
  calls : List RemoteCall
  logs : List (LogLevel × String)
  exc : Option Exc
deriving DecidableEq, Repr

/-- Outcome of `get`: the returned value or the propagated exception, and
the log entries emitted. -/
structure GetOut (V : Type) where
  result : PyResult (Table V)
  logs : List (LogLevel × String)
deriving DecidableEq, Repr

/-- The payload accepted by `upsert`: a DataFrame, a named Series, or any
other Python object (described by its repr). -/
inductive Payload (V : Type) where
  | dataFrame (df : Table V)
  | series (colName : String) (vals : List V)
  | pyObject (desc : String)
deriving DecidableEq, Repr

/-- The column table of `details` on the success and empty paths
(`df_store.py` lines 77 and 92). -/
def detailCols : List String := ["name", "s3_file", "size", "modified"]

/-- The column table of `details` on the exception path
(`df_store.py` line 97), which has an extra `created` column. -/
def detailColsOnError : List String :=
  ["name", "s3_file", "size", "created", "modified"]

/-- The DataFrame returned by `details`: column names plus one row
`(name, s3_file, size, modified)` per object. -/
structure MetaDF where
  cols : List String
  rows : List (String × String × Nat × Nat)
deriving DecidableEq, Repr

/-- Embedding of `DFStore.get` (`df_store.py`, lines 99-114): read the
parquet dataset at the generated URI; a `ClientError` (any code) is caught,
logged at warning, and an empty DataFrame is returned; any other exception
(in particular `NoFilesFound`) propagates. -/
def DFStore.get {V : Type} (env : Env) (s3 : S3State V)
    (bucket name : String) : GetOut V :=
  let uri := generate_s3_uri bucket name
  match read_parquet env s3 uri with
  | .ok df => ⟨.ok df, []⟩
  | .raised (.clientError _ _) => ⟨.ok emptyTable, [(.warning, msgNotFoundS3)]⟩
  | .raised e => ⟨.raised e, []⟩

/-- Embedding of `DFStore.upsert` (`df_store.py`, lines 116-137): a Series
is normalized to a one-column DataFrame; a payload that is then not a
DataFrame raises `ValueError` before any remote call; otherwise the dataset
is written with overwrite semantics, and a write failure is logged critical
and re-raised unchanged. -/
def DFStore.upsert {V : Type} (env : Env) (s3 : S3State V)
    (bucket name : String) (data : Payload V) : OpOut V :=
  let data2 := match data with
    | .series colName vals => Payload.dataFrame [(colName, vals)]
    | d => d
  match data2 with
  | .dataFrame df =>
    let uri := generate_s3_uri bucket name
    (match to_parquet env s3 uri df with
     | .ok s3x => ⟨s3x, [.writeP uri], [(.info, msgUpsertOk)], none⟩
     | .raised e => ⟨s3, [.writeP uri], [(.critical, msgUpsertFail)], some e⟩)
  | _ => ⟨s3, [], [], some (.valueError msgValueError)⟩

/-- Embedding of `DFStore.delete` (`df_store.py`, lines 139-157): an
existence check by prefix listing (outside any `try`, so a listing failure
propagates); if nothing is listed, log a warning and return; otherwise
delete, and a deletion failure is logged at error level but not raised. -/
def DFStore.delete {V : Type} (env : Env) (s3 : S3State V)
    (bucket name : String) : OpOut V :=
  let uri := generate_s3_uri bucket name
  match list_objects env s3 uri with
  | .raised e => ⟨s3, [.listO uri], [], some e⟩
  | .ok keys =>
    if keys.isEmpty then ⟨s3, [.listO uri], [(.warning, msgDeleteMissing)], none⟩
    else
      match delete_objects env s3 uri with
      | .ok s3x => ⟨s3x, [.listO uri, .deleteO uri], [(.info, msgDeleteOk)], none⟩
      | .raised _ => ⟨s3, [.listO uri, .deleteO uri], [(.error, msgDeleteFail)], none⟩

/-- Embedding of `DFStore.details` (`df_store.py`, lines 72-97): list the
objects under the namespace prefix; with no contents, return a zero-row
DataFrame with the four standard columns; otherwise build one row per
object, decoding the key back to a name by the line-85 reverse logic; on
any exception, log an error and return a zero-row DataFrame whose column
list has an extra `created` column.  Returns the DataFrame and the logs. -/
def DFStore.details {V : Type} (env : Env) (s3 : S3State V) (bucket : String) :
    MetaDF × List (LogLevel × String) :=
  match list_objects_v2 env s3 bucket nsPref with
  | .raised _ => (⟨detailColsOnError, []⟩, [(.error, msgDetailsFail)])
  | .ok objs =>
    if objs.isEmpty then (⟨detailCols, []⟩, [])
    else
      (⟨detailCols,
        objs.map (fun o =>
          (decodeName o.key, "s3://" ++ bucket ++ "/" ++ o.key,
           o.objSize, o.objModified))⟩, [])

/-- Environment with no injected remote faults. -/
def envNoFault : Env :=
  ⟨fun _ => none, fun _ => none, fun _ => none, fun _ => none, fun _ => none,
   fun _ => 0, fun _ => 0⟩

/-- Environment whose reads fail with a not-found style `ClientError`. -/
def envReadCE : Env :=
  ⟨fun _ => some (.clientError ("NoSuchBucket") ("p")), fun _ => none,
   fun _ => none, fun _ => none, fun _ => none, fun _ => 0, fun _ => 0⟩

/-- Environment whose reads fail with an `AccessDenied` `ClientError`. -/
def envReadAD : Env :=
  ⟨fun _ => some (.clientError ("AccessDenied") ("p")), fun _ => none,
   fun _ => none, fun _ => none, fun _ => none, fun _ => 0, fun _ => 0⟩

/-- Environment whose reads fail with a non-`ClientError` exception. -/
def envReadOther : Env :=
  ⟨fun _ => some (.other ("boom")), fun _ => none, fun _ => none,
   fun _ => none, fun _ => none, fun _ => 0, fun _ => 0⟩

/-- Environment whose writes fail. -/
def envWriteFail : Env :=
  ⟨fun _ => none, fun _ => some (.other ("network down")), fun _ => none,
   fun _ => none, fun _ => none, fun _ => 0, fun _ => 0⟩

/-- Environment whose prefix listings (`wr.s3.list_objects`) fail. -/
def envListFail : Env :=
  ⟨fun _ => none, fun _ => none, fun _ => some (.clientError ("AccessDenied") ("p")),
   fun _ => none, fun _ => none, fun _ => 0, fun _ => 0⟩

/-- Environment whose deletions fail. -/
def envDeleteFail : Env :=
  ⟨fun _ => none, fun _ => none, fun _ => none,
   fun _ => some (.other ("delete failed")), fun _ => none, fun _ => 0, fun _ => 0⟩

/-- Environment whose bucket enumerations (`list_objects_v2`) fail. -/
def envV2Fail : Env :=
  ⟨fun _ => none, fun _ => none, fun _ => none, fun _ => none,
   fun _ => some (.other ("denied")), fun _ => 0, fun _ => 0⟩

/-- A concrete two-column table used by the witnesses. -/
def tA : Table Nat := [("A", [1, 2]), ("B", [3, 4])]

/-- A concrete store holding one dataset for the name `d` in bucket `bkt`. -/
def s3one : S3State Nat := [(generate_s3_uri ("bkt") ("d"), tA)]

/-- C1: for every supported Table and name, `upsert` followed by `get` on
the resulting store returns exactly the stored Table — column names, order
and values preserved — provided the two remote calls succeed. -/
theorem c1_upsert_get_round_trip {V : Type} (env : Env) (s3 : S3State V)
    (bucket name : String) (df : Table V)
    (hw : env.writeFault (generate_s3_uri bucket name) = none)
    (hr : env.readFault (generate_s3_uri bucket name) = none) :
    (DFStore.upsert env s3 bucket name (.dataFrame df)).exc = none
    ∧ (DFStore.get env (DFStore.upsert env s3 bucket name (.dataFrame df)).state
        bucket name).result = .ok df := by
  simp [DFStore.upsert, DFStore.get, to_parquet, read_parquet, lookupObj, hw, hr,
    List.find?]

/-- Witness for C1 at a concrete table and name on an empty store. -/
theorem c1_upsert_get_round_trip_witness :
    (DFStore.upsert envNoFault ([] : S3State Nat) ("bkt") ("test_data")
        (.dataFrame tA)).exc = none
    ∧ (DFStore.get envNoFault
        (DFStore.upsert envNoFault ([] : S3State Nat) ("bkt") ("test_data")
          (.dataFrame tA)).state ("bkt") ("test_data")).result = .ok tA :=
  c1_upsert_get_round_trip envNoFault [] ("bkt") ("test_data") tA rfl rfl

/-- C2 (amended): for a name never written, the behaviour of `get` depends
on how the remote layer signals absence: when the read fails with a remote
`ClientError` (any code), `get` returns the empty Table without raising;
but when the read fails with the codec's no-matching-files error
`NoFilesFound`, the exception propagates out of `get`, because `get`
catches only `ClientError`. -/
theorem c2_get_absent_amended {V : Type} (env : Env) (s3 : S3State V)
    (bucket name : String)
    (habs : lookupObj s3 (generate_s3_uri bucket name) = none) :
    (∀ code payload,
      env.readFault (generate_s3_uri bucket name)
        = some (.clientError code payload) →
      (DFStore.get env s3 bucket name).result = .ok emptyTable)
    ∧ (env.readFault (generate_s3_uri bucket name) = none →
      (DFStore.get env s3 bucket name).result = .raised .noFilesFound) := by
  constructor
  · intro code payload h
    simp [DFStore.get, read_parquet, h]
  · intro h
    simp [DFStore.get, read_parquet, h, habs]

/-- C2 counterexample: with no injected fault, absence of a never-written
name surfaces as the codec's `NoFilesFound`, which `get` does not catch:
the call raises instead of returning an empty Table. -/
theorem c2_get_absent_counterexample :
    (DFStore.get envNoFault ([] : S3State Nat) ("bkt") ("never_written")).result
      = .raised .noFilesFound
    ∧ (DFStore.get envNoFault ([] : S3State Nat) ("bkt") ("never_written")).result
      ≠ .ok emptyTable := by decide

/-- Witness for C2 (amended): both absence signals exercised concretely. -/
theorem c2_get_absent_amended_witness :
    (DFStore.get envReadCE ([] : S3State Nat) ("bkt") ("d")).result
      = .ok emptyTable
    ∧ (DFStore.get envNoFault ([] : S3State Nat) ("bkt") ("d")).result
      = .raised .noFilesFound :=
  ⟨(c2_get_absent_amended envReadCE [] ("bkt") ("d") rfl).1
      ("NoSuchBucket") ("p") rfl,
   (c2_get_absent_amended envNoFault [] ("bkt") ("d") rfl).2 rfl⟩

/-- C5: when the remote write inside `upsert` fails with any error, for any
valid DataFrame or Series payload, `upsert` logs at critical severity and
re-raises that very error; the failed write leaves the remote state
unchanged and the write call is the only remote call made. -/
theorem c5_upsert_reraises_write_failure {V : Type} (env : Env)
    (s3 : S3State V) (bucket name : String) (data : Payload V) (e : Exc)
    (hvalid : (∃ df, data = .dataFrame df) ∨ (∃ cn vs, data = .series cn vs))
    (hw : env.writeFault (generate_s3_uri bucket name) = some e) :
    DFStore.upsert env s3 bucket name data
      = ⟨s3, [.writeP (generate_s3_uri bucket name)],
         [(.critical, msgUpsertFail)], some e⟩ := by
  rcases hvalid with ⟨df, rfl⟩ | ⟨cn, vs, rfl⟩ <;>
    simp [DFStore.upsert, to_parquet, hw]

/-- Witness for C5 at a concrete table with a failing write. -/
theorem c5_upsert_reraises_write_failure_witness :
    DFStore.upsert envWriteFail ([] : S3State Nat) ("bkt") ("d") (.dataFrame tA)
      = ⟨[], [.writeP (generate_s3_uri ("bkt") ("d"))],
         [(.critical, msgUpsertFail)], some (.other ("network down"))⟩ :=
  c5_upsert_reraises_write_failure envWriteFail [] ("bkt") ("d") (.dataFrame tA)
    (.other ("network down")) (Or.inl ⟨tA, rfl⟩) rfl

/-- C6: a payload that is neither a DataFrame nor a Series makes `upsert`
fail with `ValueError` before any remote call: no remote call is recorded
and the remote state is unchanged. -/
theorem c6_upsert_invalid_payload {V : Type} (env : Env) (s3 : S3State V)
    (bucket name : String) (data : Payload V)
    (h1 : ∀ df, data ≠ .dataFrame df) (h2 : ∀ cn vs, data ≠ .series cn vs) :
    DFStore.upsert env s3 bucket name data
      = ⟨s3, [], [], some (.valueError msgValueError)⟩ := by
  cases data with
  | dataFrame df => exact absurd rfl (h1 df)
  | series cn vs => exact absurd rfl (h2 cn vs)
  | pyObject d => simp [DFStore.upsert]

/-- Witness for C6 at a payload modelling an arbitrary non-pandas object. -/
theorem c6_upsert_invalid_payload_witness :
    DFStore.upsert envNoFault ([] : S3State Nat) ("bkt") ("d") (.pyObject ("int 3"))
      = ⟨[], [], [], some (.valueError msgValueError)⟩ :=
  c6_upsert_invalid_payload envNoFault [] ("bkt") ("d") (.pyObject ("int 3"))
    (fun _ h => Payload.noConfusion h) (fun _ _ h => Payload.noConfusion h)

/-- C8 (amended): `get` catches every remote `ClientError` regardless of
its code — including `AccessDenied` — logging a warning and returning an
empty Table rather than re-raising; only a non-`ClientError` exception
propagates unchanged. -/
theorem c8_get_swallows_client_errors_amended {V : Type} (env : Env)
    (s3 : S3State V) (bucket name : String) :
    (∀ code payload,
      env.readFault (generate_s3_uri bucket name)
        = some (.clientError code payload) →
      DFStore.get env s3 bucket name
        = ⟨.ok emptyTable, [(.warning, msgNotFoundS3)]⟩)
    ∧ (∀ msg, env.readFault (generate_s3_uri bucket name) = some (.other msg) →
      DFStore.get env s3 bucket name = ⟨.raised (.other msg), []⟩) := by
  constructor
  · intro code payload h
    simp [DFStore.get, read_parquet, h]
  · intro msg h
    simp [DFStore.get, read_parquet, h]

/-- C8 counterexample: a read failing with `AccessDenied` — a code in no
not-found set — is converted by `get` into an empty-Table result instead of
being re-raised. -/
theorem c8_get_counterexample :
    (DFStore.get envReadAD ([] : S3State Nat) ("bkt") ("d")).result
      = .ok emptyTable := by decide

/-- Witness for C8 (amended): a swallowed `AccessDenied` and a propagated
non-`ClientError` exception, concretely. -/
theorem c8_get_swallows_client_errors_amended_witness :
    DFStore.get envReadAD ([] : S3State Nat) ("bkt") ("d")
      = ⟨.ok emptyTable, [(.warning, msgNotFoundS3)]⟩
    ∧ DFStore.get envReadOther ([] : S3State Nat) ("bkt") ("d")
      = ⟨.raised (.other ("boom")), []⟩ :=
  ⟨(c8_get_swallows_client_errors_amended envReadAD [] ("bkt") ("d")).1
      ("AccessDenied") ("p") rfl,
   (c8_get_swallows_client_errors_amended envReadOther [] ("bkt") ("d")).2
      ("boom") rfl⟩

/-- Nothing stored strictly under a deleted prefix survives a lookup at
that prefix: after filtering out every key extending `uri`, looking up
`uri` gives nothing. -/
theorem lookupObj_after_filter {V : Type} (s3 : S3State V) (uri : String) :
    lookupObj (s3.filter (fun p => !(strHasPref uri p.1))) uri = none := by
  unfold lookupObj
  rw [Option.map_eq_none', List.find?_eq_none]
  intro x hx
  have hkeep := (List.mem_filter.mp hx).2
  intro hbeq
  have hxeq : x.1 = uri := by simpa using hbeq
  have hself : strHasPref uri x.1 = true := by
    rw [hxeq]
    exact isPrefixOf_self uri.data
  rw [hself] at hkeep
  simp at hkeep

/-- C7 (amended): provided the existence listing succeeds, `delete` never
raises: on an absent name it logs a warning and returns with the state
unchanged; on a present name with a successful remote deletion it removes
the stored object (so a subsequent lookup finds nothing) and raises
nothing; and when the remote deletion itself fails, the failure is logged
at error level but not raised, leaving the state unchanged.  (When the
existence listing itself fails, the exception propagates out of `delete`:
see the counterexample.) -/
theorem c7_delete_amended {V : Type} (env : Env) (s3 : S3State V)
    (bucket name : String)
    (hl : env.listFault (generate_s3_uri bucket name) = none) :
    ((s3.filter (fun p => strHasPref (generate_s3_uri bucket name) p.1)) = [] →
      DFStore.delete env s3 bucket name
        = ⟨s3, [.listO (generate_s3_uri bucket name)],
           [(.warning, msgDeleteMissing)], none⟩)
    ∧ ((s3.filter (fun p => strHasPref (generate_s3_uri bucket name) p.1)) ≠ [] →
      env.deleteFault (generate_s3_uri bucket name) = none →
      (DFStore.delete env s3 bucket name).exc = none
      ∧ lookupObj (DFStore.delete env s3 bucket name).state
          (generate_s3_uri bucket name) = none)
    ∧ ((s3.filter (fun p => strHasPref (generate_s3_uri bucket name) p.1)) ≠ [] →
      ∀ e, env.deleteFault (generate_s3_uri bucket name) = some e →
      DFStore.delete env s3 bucket name
        = ⟨s3, [.listO (generate_s3_uri bucket name),
                .deleteO (generate_s3_uri bucket name)],
           [(.error, msgDeleteFail)], none⟩) := by
  refine ⟨fun habs => ?_, fun hpres hdel => ?_, fun hpres e hdel => ?_⟩
  · simp [DFStore.delete, list_objects, hl, habs]
  · constructor
    · simp [DFStore.delete, list_objects, delete_objects, hl, hdel,
        List.isEmpty_iff, hpres]
    · simp only [DFStore.delete, list_objects, delete_objects, hl, hdel]
      rw [if_neg (by simp [List.isEmpty_iff, hpres])]
      exact lookupObj_after_filter s3 (generate_s3_uri bucket name)
  · simp [DFStore.delete, list_objects, delete_objects, hl, hdel,
      List.isEmpty_iff, hpres]

/-- C7 counterexample: the existence listing is performed outside any
`try`, so when the remote listing fails, `delete` raises — it is not true
that `delete` never raises. -/
theorem c7_delete_counterexample :
    (DFStore.delete envListFail ([] : S3State Nat) ("bkt") ("d")).exc
      = some (.clientError ("AccessDenied") ("p")) := by decide

/-- Witness for C7 (amended): the three branches exercised concretely. -/
theorem c7_delete_amended_witness :
    (DFStore.delete envNoFault ([] : S3State Nat) ("bkt") ("d")
      = ⟨[], [.listO (generate_s3_uri ("bkt") ("d"))],
         [(.warning, msgDeleteMissing)], none⟩)
    ∧ ((DFStore.delete envNoFault s3one ("bkt") ("d")).exc = none
       ∧ lookupObj (DFStore.delete envNoFault s3one ("bkt") ("d")).state
           (generate_s3_uri ("bkt") ("d")) = none)
    ∧ (DFStore.delete envDeleteFail s3one ("bkt") ("d")
        = ⟨s3one, [.listO (generate_s3_uri ("bkt") ("d")),
                   .deleteO (generate_s3_uri ("bkt") ("d"))],
           [(.error, msgDeleteFail)], none⟩) :=
  ⟨(c7_delete_amended envNoFault [] ("bkt") ("d") rfl).1 rfl,
   (c7_delete_amended envNoFault s3one ("bkt") ("d") rfl).2.1 (by decide) rfl,
   (c7_delete_amended envDeleteFail s3one ("bkt") ("d") rfl).2.2 (by decide)
     (.other ("delete failed")) rfl⟩

/-- C9 (amended): on a store with zero names ever written, `details`
returns a zero-row DataFrame with the four standard metadata columns; on a
remote enumeration failure, `details` logs an error and returns a zero-row
DataFrame rather than raising, but its column list carries an extra
`created` column and so differs from the column set of a successful
listing. -/
theorem c9_details_amended {V : Type} (env : Env) (s3 : S3State V)
    (bucket : String) :
    (env.listV2Fault bucket = none →
      DFStore.details env ([] : S3State V) bucket = (⟨detailCols, []⟩, []))
    ∧ (∀ e, env.listV2Fault bucket = some e →
      DFStore.details env s3 bucket
        = (⟨detailColsOnError, []⟩, [(.error, msgDetailsFail)])) := by
  constructor
  · intro h
    simp [DFStore.details, list_objects_v2, h]
  · intro e h
    simp [DFStore.details, list_objects_v2, h]

/-- C9 counterexample: the zero-row DataFrame returned by `details` on a
remote failure does not have the same column set as a successful non-empty
listing (it has an extra `created` column). -/
theorem c9_details_counterexample :
    (DFStore.details envV2Fail ([] : S3State Nat) ("bkt")).1.cols
      ≠ (DFStore.details envNoFault s3one ("bkt")).1.cols
    ∧ (DFStore.details envNoFault s3one ("bkt")).1.rows ≠ [] := by decide

/-- Witness for C9 (amended): empty store and failing enumeration,
concretely. -/
theorem c9_details_amended_witness :
    DFStore.details envNoFault ([] : S3State Nat) ("bkt") = (⟨detailCols, []⟩, [])
    ∧ DFStore.details envV2Fail s3one ("bkt")
        = (⟨detailColsOnError, []⟩, [(.error, msgDetailsFail)]) :=
  ⟨(c9_details_amended envNoFault ([] : S3State Nat) ("bkt")).1 rfl,
   (c9_details_amended envV2Fail s3one ("bkt")).2 (.other ("denied")) rfl⟩

/-- A pattern of two or more characters does not match when the second
characters differ. -/
theorem isPrefixOf_false_second (p₀ p₁ c₀ c₁ : Char) (pr rest : List Char)
    (h : c₁ ≠ p₁) :
    (p₀ :: p₁ :: pr).isPrefixOf (c₀ :: c₁ :: rest) = false := by
  have hb : (p₁ == c₁) = false := beq_eq_false_iff_ne.mpr fun he => h he.symm
  simp [List.isPrefixOf, hb]

/-- Replacement passes unchanged over a block that never contains the
pattern's first character. -/
theorem replaceAll_no_head (p₀ : Char) (pr rep : List Char) :
    ∀ (l₁ l₂ : List Char), (∀ c ∈ l₁, c ≠ p₀) →
      replaceAll (p₀ :: pr) rep (l₁ ++ l₂) = l₁ ++ replaceAll (p₀ :: pr) rep l₂ := by
  intro l₁
  induction l₁ with
  | nil => intro l₂ _; rfl
  | cons a as ih =>
    intro l₂ h
    have hnp : ¬ ((p₀ :: pr).isPrefixOf (a :: (as ++ l₂)) = true) := by
      have hb : (p₀ == a) = false :=
        beq_eq_false_iff_ne.mpr fun he => h a (List.mem_cons_self a as) he.symm
      simp [List.isPrefixOf, hb]
    show replLoop (p₀ :: pr) rep 0 (a :: (as ++ l₂))
        = a :: (as ++ replaceAll (p₀ :: pr) rep l₂)
    rw [replLoop_zero_cons, if_neg hnp]
    exact congrArg (a :: ·) (ih l₂ fun c hc => h c (List.mem_cons_of_mem a hc))

/-- The URI generated by `_generate_s3_uri` is exactly the `s3://` scheme,
the bucket, a slash, and the storage key, for a slash-free bucket and a
slash-free logical name: the doubled-slash collapse changes nothing on this
input, so `storageKey` really is the bucket-relative part of the URI. -/
theorem generate_s3_uri_eq (bucket n : String)
    (hb : '/' ∉ bucket.data) (h1 : '/' ∉ n.data) :
    generate_s3_uri bucket n = "s3://" ++ (bucket ++ ("/" ++ storageKey n)) := by
  apply String.ext
  rw [storageKey_id n h1]
  have hslash : ("/" : String).data = ['/'] := rfl
  have hdata : (bucket ++ "/" ++ nsPref ++ n ++ parquetExt).data
      = bucket.data ++ ('/' :: (nsPref.data ++ (n.data ++ parquetExt.data))) := by
    simp only [strData_append]
    simp [List.append_assoc]
  have hcond : (("//" : String).data).isPrefixOf
      ('/' :: (nsPref.data ++ (n.data ++ parquetExt.data))) = false :=
    isPrefixOf_false_second '/' '/' '/' 'd' []
      (("f_store/" : String).data ++ (n.data ++ parquetExt.data)) (by decide)
  have hcount : (nsPref.data ++ (n.data ++ parquetExt.data)).count '/'
      < (("//" : String).data).count '/' := by
    rw [List.count_append, List.count_append, List.count_eq_zero.mpr h1]
    decide
  have hstep2 : replaceAll ("//" : String).data ("/" : String).data
      ('/' :: (nsPref.data ++ (n.data ++ parquetExt.data)))
      = '/' :: (nsPref.data ++ (n.data ++ parquetExt.data)) := by
    have hnc : ¬ ((("//" : String).data).isPrefixOf
        ('/' :: (nsPref.data ++ (n.data ++ parquetExt.data))) = true) := by
      simp [hcond]
    show replLoop ("//" : String).data ("/" : String).data 0
        ('/' :: (nsPref.data ++ (n.data ++ parquetExt.data))) = _
    rw [replLoop_zero_cons, if_neg hnc]
    exact congrArg ('/' :: ·)
      (replaceAll_eq_self ("//" : String).data ("/" : String).data '/' _ hcount)
  have hstep1 : replaceAll ("//" : String).data ("/" : String).data
      (bucket.data ++ ('/' :: (nsPref.data ++ (n.data ++ parquetExt.data))))
      = bucket.data ++ replaceAll ("//" : String).data ("/" : String).data
          ('/' :: (nsPref.data ++ (n.data ++ parquetExt.data))) :=
    replaceAll_no_head '/' (['/']) ("/" : String).data bucket.data
      ('/' :: (nsPref.data ++ (n.data ++ parquetExt.data)))
      (fun c hc he => hb (he ▸ hc))
  simp only [strData_append]
  refine congrArg (("s3://" : String).data ++ ·) ?_
  show replaceAll ("//" : String).data ("/" : String).data
      (bucket ++ "/" ++ nsPref ++ n ++ parquetExt).data = _
  rw [hdata, hstep1, hstep2]
  simp [List.append_assoc]
